import Mathlib

/-!
Verification of the PubGuard scan-site core (app/api/scan-site/route.ts):
shallow embedding of its pure algorithmic parts (URL classification,
duplicate detection, scoring/aggregation, frontier expansion, POST
handler control flow) and proofs of the spec's testable properties.
-/

namespace PubGuard

/-- Model of the JavaScript whitespace class used by the source's
regular expressions and by string trimming. -/
def isWsChar (c : Char) : Bool := c.isWhitespace

/-- Embeds `content.replace(/\s+/g, ' ')`: each maximal run of whitespace
characters is replaced by a single space.  The Boolean argument records
whether the previously emitted character came from a whitespace run. -/
def collapseWsAux : Bool → List Char → List Char
  | _, [] => []
  | prevWs, c :: rest =>
    if isWsChar c then
      if prevWs then collapseWsAux true rest
      else ' ' :: collapseWsAux true rest
    else c :: collapseWsAux false rest

/-- Embeds JavaScript `String.prototype.trim`. -/
def trimChars (l : List Char) : List Char :=
  ((l.dropWhile isWsChar).reverse.dropWhile isWsChar).reverse

/-- Embeds the normalization in `checkForDuplicateContent`:
`content.toLowerCase().replace(/\s+/g, ' ').trim()`. -/
def normalizeContent (s : String) : List Char :=
  trimChars (collapseWsAux false (s.data.map Char.toLower))

/-- Embeds the position-aligned match count of `checkForDuplicateContent`:
for `i` below the length of the shorter string, count positions where the
two normalized strings agree (the zip truncates at the shorter length). -/
def countPosMatches (a b : List Char) : Nat :=
  (a.zip b).countP (fun p => p.1 == p.2)

/-- Embeds `checkForDuplicateContent(content, existingContent)` from
app/api/scan-site/route.ts: normalize both strings, skip any comparison
whose shorter normalized form is not longer than 100 characters, and
declare a duplicate when the per-position match ratio exceeds 0.8. -/
def checkForDuplicateContent (content : String) (existingContent : List String) : Bool :=
  let nc := normalizeContent content
  existingContent.any (fun existing =>
    let ne := normalizeContent existing
    let minLength := min nc.length ne.length
    if 100 < minLength then
      decide ((8 : ℚ) / 10 < (countPosMatches nc ne : ℚ) / (minLength : ℚ))
    else false)

/-! ### URL model and the URL classifier `isLikelyPostUrl` -/

/-- Splits a character list at the first occurrence of `c`: returns the
part before it and, when `c` occurs, the part after it. -/
def splitFirst (c : Char) : List Char → List Char × Option (List Char)
  | [] => ([], none)
  | x :: rest =>
    if x == c then ([], some rest)
    else
      let p := splitFirst c rest
      (x :: p.1, p.2)

/-- Embeds JavaScript `String.prototype.split(sep)` for a one-character
separator (empty pieces are kept, as in JavaScript). -/
def splitOnChar (c : Char) : List Char → List (List Char)
  | [] => [[]]
  | x :: rest =>
    if x == c then [] :: splitOnChar c rest
    else
      match splitOnChar c rest with
      | [] => [[x]]
      | seg :: segs => (x :: seg) :: segs

/-- Embeds `String.prototype.toLowerCase` (restricted to the per-character
lowering the source's inputs exercise). -/
def toLowerStr (s : String) : String := String.mk (s.data.map Char.toLower)

/-- `containsAux sub l` is true iff `sub` occurs as a contiguous sublist
of `l`. -/
def containsAux (sub : List Char) : List Char → Bool
  | [] => sub.isEmpty
  | c :: rest => sub.isPrefixOf (c :: rest) || containsAux sub rest

/-- Embeds `hay.includes(sub)` on JavaScript strings. -/
def strContains (hay sub : String) : Bool := containsAux sub.data hay.data

/-- The components of a parsed URL that `isLikelyPostUrl` reads:
`pathname` and `hash` of the WHATWG `URL` object (`hash` is `""` when the
URL has no fragment or a bare `#`, otherwise `"#frag"`). -/
structure UrlParts where
  pathname : String
  hash : String
deriving DecidableEq

/-- Model of `new URL(u)` restricted to absolute http/https URLs, which is
the shape of every URL the crawler produces: scheme, then a nonempty host
up to `/`, `?` or `#`, then the pathname (defaulting to `/`), with the
query discarded and the fragment kept in `hash`. Non-http(s) or hostless
inputs yield `none` (the constructor throws there). -/
def parseUrl (u : String) : Option UrlParts :=
  let chars := u.data
  let rest? : Option (List Char) :=
    if ("https://".data).isPrefixOf chars then some (chars.drop 8)
    else if ("http://".data).isPrefixOf chars then some (chars.drop 7)
    else none
  match rest? with
  | none => none
  | some rest =>
    let host := rest.takeWhile (fun c => !(c == '/' || c == '?' || c == '#'))
    if host.isEmpty then none
    else
      let afterHost := rest.drop host.length
      let p := splitFirst '#' afterHost
      let beforeQuery := (splitFirst '?' p.1).1
      let pathname := if beforeQuery.isEmpty then "/" else String.mk beforeQuery
      let hash :=
        match p.2 with
        | none => ""
        | some [] => ""
        | some frag => String.mk ('#' :: frag)
      some { pathname := pathname, hash := hash }

/-- The `REQUIRED_PAGES` constant of the source. -/
def REQUIRED_PAGES : List String := ["about", "contact", "privacy", "terms", "disclaimer"]

/-- The `toolKeywords` list of `isLikelyPostUrl`. -/
def toolKeywords : List String :=
  ["download", "torrent", "crack", "keygen", "serial", "hack", "patch", "key", "activation",
   "free-download", "download-free", "free-torrent", "torrent-download",
   "cracked", "crack-download", "crack-free",
   "apk-download", "apk-free", "app-download", "app-free",
   "software-download", "software-free", "free-software",
   "movie-download", "movie-free", "free-movie", "torrent-movie",
   "music-download", "music-free", "free-music", "torrent-music",
   "downloader",
   "video-downloader", "audio-downloader", "mp3-downloader", "mp4-downloader",
   "instagram-downloader", "tiktok-downloader", "youtube-downloader", "facebook-downloader",
   "soundcloud-downloader", "twitch-downloader", "pinterest-downloader"]

/-- Embeds the regex `/\/page\/\d+/`: somewhere in the string, `/page/`
followed by at least one digit. -/
def pageNumTest : List Char → Bool
  | [] => false
  | c :: rest =>
    (("/page/".data).isPrefixOf (c :: rest) &&
      (match (c :: rest).drop 6 with
       | d :: _ => d.isDigit
       | [] => false)) ||
    pageNumTest rest

/-- Embeds the regex `/\/\d{4}\/$/`: the string ends in `/` preceded by
four digits preceded by `/`. -/
def yearDirTest (l : List Char) : Bool :=
  match l.reverse with
  | '/' :: d1 :: d2 :: d3 :: d4 :: '/' :: _ =>
    d1.isDigit && d2.isDigit && d3.isDigit && d4.isDigit
  | _ => false

/-- Embeds the regex `/\/\d{4}\/\d{2}\/$/`. -/
def yearMonthDirTest (l : List Char) : Bool :=
  match l.reverse with
  | '/' :: m1 :: m2 :: '/' :: y1 :: y2 :: y3 :: y4 :: '/' :: _ =>
    m1.isDigit && m2.isDigit && y1.isDigit && y2.isDigit && y3.isDigit && y4.isDigit
  | _ => false

/-- Embeds the `obviousCategoryPatterns` regex list of `isLikelyPostUrl`,
tested (as in the source) against the full lowercased URL with its
fragment removed. -/
def obviousCategoryMatch (cleanUrl : String) : Bool :=
  strContains cleanUrl "/search/" || strContains cleanUrl "/category/" ||
  strContains cleanUrl "/tag/" || strContains cleanUrl "/author/" ||
  strContains cleanUrl "/archive/" ||
  ("/feed".data).isSuffixOf cleanUrl.data ||
  strContains cleanUrl "/wp-json/" || strContains cleanUrl "/wp-content/" ||
  strContains cleanUrl "/wp-includes/" || strContains cleanUrl "/admin/" ||
  strContains cleanUrl "/login" || strContains cleanUrl "/register" ||
  strContains cleanUrl "/signup" || strContains cleanUrl "/cart" ||
  strContains cleanUrl "/checkout" || strContains cleanUrl "/shop" ||
  strContains cleanUrl "/store" || strContains cleanUrl "/products" ||
  strContains cleanUrl "/services" || strContains cleanUrl "/about" ||
  strContains cleanUrl "/contact" || strContains cleanUrl "/privacy" ||
  strContains cleanUrl "/terms" || strContains cleanUrl "/disclaimer" ||
  pageNumTest cleanUrl.data ||
  yearDirTest cleanUrl.data || yearMonthDirTest cleanUrl.data

/-- Embeds the regex `/^\/\d{4}\/\d{2}\/.*\.html$/` applied to the
pathname (the accepted dated blog-post shape). -/
def datedPostTest : List Char → Bool
  | '/' :: y1 :: y2 :: y3 :: y4 :: '/' :: m1 :: m2 :: '/' :: rest =>
    y1.isDigit && y2.isDigit && y3.isDigit && y4.isDigit &&
    m1.isDigit && m2.isDigit && (".html".data).isSuffixOf rest
  | _ => false

/-- Embeds the regex `/^\d+$/` on a path segment. -/
def allDigitsSeg (seg : List Char) : Bool :=
  match seg with
  | [] => false
  | _ => seg.all Char.isDigit

/-- The exact words of the `/^(page|category|…|store)$/` last-segment
exclusion regex. -/
def structuralSlugWords : List String :=
  ["page", "category", "tag", "feed", "wp-json", "admin", "login",
   "register", "signup", "cart", "checkout", "shop", "store"]

/-- The suffixes of the `/\.(html|htm|php|asp|jsp|aspx)$/` last-segment
exclusion regex. -/
def slugFileExts : List String := [".html", ".htm", ".php", ".asp", ".jsp", ".aspx"]

/-- Embeds the body of `isLikelyPostUrl` given the lowercased URL string
`u` and its parsed `urlObj`, preserving the source's check order:
fragment rejection first, then tool/download keywords, then structural
category patterns, then the dated-post pattern, then the single-segment
fallback, then the descriptive-slug rule. -/
def isLikelyPostUrlAux (u : String) (urlObj : UrlParts) : Bool :=
  let path := urlObj.pathname
  let segments := (splitOnChar '/' path.data).filter (fun seg => !seg.isEmpty)
  let cleanUrl := String.mk (splitFirst '#' u.data).1
  if urlObj.hash != "" then false
  else if toolKeywords.any (fun kw => strContains path kw) then true
  else if obviousCategoryMatch cleanUrl then false
  else if datedPostTest path.data then true
  else if segments.length == 1 && !(REQUIRED_PAGES.contains (String.mk (segments.headD []))) then
    true
  else if 2 ≤ segments.length then
    let lastSegment := segments.getLastD []
    decide (4 < lastSegment.length) && !(allDigitsSeg lastSegment) &&
      !(structuralSlugWords.contains (String.mk lastSegment)) &&
      !(slugFileExts.any (fun ext => ext.data.isSuffixOf lastSegment))
  else false

/-- Embeds `isLikelyPostUrl(url)`: the source lowercases the URL and
parses it with `new URL`; a parse failure throws in JavaScript, modelled
here as `none`. -/
def isLikelyPostUrl (url : String) : Option Bool :=
  let u := toLowerStr url
  (parseUrl u).map (fun urlObj => isLikelyPostUrlAux u urlObj)

/-! ### Violations, the semantic-classifier confidence filter, and page findings -/

/-- A violation record as produced by the rule-based detector and by the
semantic classifier: `{ type, excerpt, confidence }`. Confidence is kept
as a rational; every comparison the source performs on it is between
numbers that the JavaScript doubles represent order-faithfully. -/
structure AIViolation where
  type : String
  excerpt : String
  confidence : ℚ
deriving DecidableEq

/-- Embeds the confidence filter applied to the parsed semantic-classifier
response in `analyzeTextWithAI`:
`parsedJson.violations.filter((v) => v.confidence > 0.8)`. -/
def aiViolationFilter (violations : List AIViolation) : List AIViolation :=
  violations.filter (fun v => (8 : ℚ) / 10 < v.confidence)

/-- An entry of the `pagesWithIssues` list: per-page violations, summary
and suggestions (the fields the scoring and aggregation read). -/
structure PageIssue where
  url : String
  violations : List AIViolation
  summary : String
  suggestions : List String
  qualityIssues : List String := []
deriving DecidableEq

/-- The entry pushed onto `pagesWithIssues` when
`checkForDuplicateContent` flags a page: one `DuplicateContent` violation
of confidence 0.9 and two fixed suggestions. -/
def duplicatePageIssue (p : String) : PageIssue :=
  { url := p
    violations := [{ type := "DuplicateContent"
                     excerpt := "Content appears to be duplicate or highly similar to other pages"
                     confidence := 9 / 10 }]
    summary := "Duplicate content detected"
    suggestions := ["Rewrite content to be unique", "Use canonical tags if necessary"] }

/-- Embeds the violation count of the report: the sum of
`p.violations.length` over `pagesWithIssues` plus the homepage
violations. -/
def totalViolationsOf (pagesWithIssues : List PageIssue) (homepageViolations : List AIViolation) : Nat :=
  pagesWithIssues.foldl (fun acc p => acc + p.violations.length) 0 + homepageViolations.length

/-! ### Scoring, summary and suggestion aggregation -/

/-- Embeds the scoring block of the POST handler: start from 100,
subtract 5 per violation, 5 per missing required page, 2 per homepage
structure issue, 10 if fewer than 20 posts (else 5 if fewer than 40),
3 when the meta description is missing and 3 when headers are weak, then
clamp to [0, 100] (the rounding is the identity on these integers). -/
def computeScore (totalViolations missingCount homepageIssueCount totalPosts : Nat)
    (hasMetaTags hasGoodHeaders : Bool) : Nat :=
  (max 0 (min 100
    (100 - 5 * (totalViolations : Int) - 5 * (missingCount : Int) - 2 * (homepageIssueCount : Int)
      - (if totalPosts < 20 then 10 else if totalPosts < 40 then 5 else 0)
      - (if hasMetaTags then 0 else 3)
      - (if hasGoodHeaders then 0 else 3)))).toNat

/-- Embeds the report's one-line `summary` selection. -/
def summaryOf (totalViolations pagesWithIssuesCount totalPosts : Nat) : String :=
  if 0 < totalViolations then
    s!"{totalViolations} violations found across {pagesWithIssuesCount} posts."
  else if totalPosts < 20 then
    s!"Low content ({totalPosts} posts)."
  else
    "✅ Site appears compliant."

/-- Embeds the construction of `aiSuggestions` before the report is
assembled: homepage suggestions, then every page's suggestions, then the
missing-pages reminder (when any required page is missing), then the
homepage-structure reminder (when the homepage has quality issues). -/
def aiSuggestionsFull (homepageSuggestions : List String) (pagesWithIssues : List PageIssue)
    (missing : List String) (homepageStructureIssues : List String) : List String :=
  let a := homepageSuggestions ++ pagesWithIssues.flatMap (fun p => p.suggestions)
  let a := if 0 < missing.length then
      a ++ ["Add missing pages: " ++ String.intercalate ", " missing]
    else a
  if 0 < homepageStructureIssues.length then
    a ++ ["Fix homepage structure: " ++ String.intercalate ", " homepageStructureIssues]
  else a

/-- Embeds the `aiSuggestions` field of the final report:
`aiSuggestions.slice(0, 15)`. -/
def reportAiSuggestions (homepageSuggestions : List String) (pagesWithIssues : List PageIssue)
    (missing : List String) (homepageStructureIssues : List String) : List String :=
  (aiSuggestionsFull homepageSuggestions pagesWithIssues missing homepageStructureIssues).take 15

/-! ### Frontier expansion -/

/-- The `MAX_PAGES` constant of the source. -/
def MAX_PAGES : Nat := 500

/-- Embeds the deep-crawl block of the POST handler. `crawled` is seeded
with the homepage links; each of the first 20 links gets a task that
first checks `crawled.size > MAX_PAGES` and otherwise fetches the link
and merges every extracted link into `crawled`. Because each task runs
synchronously up to its first `await`, every task's cap check observes
the seed set, before any merge; the merges themselves are unconditional,
and set union is insensitive to their completion order. `fetchLinks`
gives the links extracted from a seed (`[]` when its fetch fails). -/
def crawlExpand (allLinks : List String) (fetchLinks : String → List String) : Finset String :=
  if MAX_PAGES < allLinks.toFinset.card then allLinks.toFinset
  else (allLinks.take 20).foldl (fun acc link => acc ∪ (fetchLinks link).toFinset) allLinks.toFinset

/-! ### POST handler control flow -/

/-- The JSON body of an inbound POST request: the handler destructures
only `url`; `action` is carried by one in-repository caller but never
read. -/
structure RequestBody where
  url : Option String
  action : Option String
deriving DecidableEq

/-- The report fields the handler returns on success (the remainder of
the pipeline, abstracted for the control-flow claims). -/
structure SiteReportShape where
  score : Nat
  summary : String
  aiSuggestions : List String
  totalViolations : Nat
deriving DecidableEq

/-- The four response shapes the POST handler can produce, with their
status codes and bodies:
400 `{ error: "URL required" }`, 500 `{ error: "OpenAI API key is missing
or invalid" }`, 500 `{ error: "Scan failed", message }`, and the 200
report body. -/
inductive PostResponse where
  | urlRequired : PostResponse
  | apiKeyMissing : PostResponse
  | scanFailed (message : String) : PostResponse
  | report (r : SiteReportShape) : PostResponse
deriving DecidableEq

/-- The HTTP status attached to each response shape. -/
def PostResponse.status : PostResponse → Nat
  | .urlRequired => 400
  | .apiKeyMissing => 500
  | .scanFailed _ => 500
  | .report _ => 200

/-- Whether the JSON body of the response carries a `message` field
(only the catch-all `{ error: "Scan failed", message }` body does). -/
def PostResponse.bodyHasMessageField : PostResponse → Bool
  | .scanFailed _ => true
  | _ => false

/-- JavaScript falsiness of an optional string (`undefined`, `null` and
`""` are falsy). -/
def falsyStr : Option String → Bool
  | none => true
  | some s => s == ""

/-- Embeds the POST handler's control flow up to report assembly:
reject a falsy `url` with 400; reject a falsy `OPENAI_API_KEY` with 500
before any fetch; fetch the homepage and convert an empty result into the
catch-all 500; otherwise run the scan pipeline (abstracted as `runScan`
over the url and homepage markup). The `action` field of the body is
never consulted. -/
def POST (body : RequestBody) (apiKey : Option String) (fetch : String → String)
    (runScan : String → String → SiteReportShape) : PostResponse :=
  match body.url with
  | none => .urlRequired
  | some url =>
    if url = "" then .urlRequired
    else if falsyStr apiKey then .apiKeyMissing
    else if fetch url = "" then .scanFailed "Failed to fetch homepage"
    else .report (runScan url (fetch url))

/-! ### Concrete inputs used by counterexamples and witnesses -/

/-- A homepage link graph of 501 distinct same-host URLs. -/
def cxUrls : List String :=
  (List.range 501).map (fun n => String.mk ("https://example.com/".data ++ List.replicate (n + 1) 'a'))

/-- A 101-character page body. -/
def longBody : String := String.mk (List.replicate 101 'a')

/-- Sixteen distinct page suggestions. -/
def sixteenSuggestions : List String :=
  ["s01", "s02", "s03", "s04", "s05", "s06", "s07", "s08",
   "s09", "s10", "s11", "s12", "s13", "s14", "s15", "s16"]

/-- A trivial stand-in for the abstracted scan pipeline. -/
def rsZero : SiteReportShape :=
  { score := 0, summary := "", aiSuggestions := [], totalViolations := 0 }

/-! ### Helper lemmas -/

theorem cxUrls_nodup : cxUrls.Nodup := by
  refine List.Nodup.map ?_ (List.nodup_range 501)
  intro a b h
  have h' : "https://example.com/".data ++ List.replicate (a + 1) 'a' =
      "https://example.com/".data ++ List.replicate (b + 1) 'a' := congrArg String.data h
  have h2 := List.append_cancel_left h'
  have h3 := congrArg List.length h2
  simpa using h3

theorem cxUrls_toFinset_card : cxUrls.toFinset.card = 501 := by
  rw [List.toFinset_card_of_nodup cxUrls_nodup]
  simp [cxUrls]

theorem foldl_union_card_le (f : String → List String) (t : List String) (s : Finset String) :
    (t.foldl (fun acc link => acc ∪ (f link).toFinset) s).card ≤
      s.card + (t.map (fun l => (f l).length)).sum := by
  induction t generalizing s with
  | nil => simp
  | cons x xs ih =>
    simp only [List.foldl_cons, List.map_cons, List.sum_cons]
    calc (xs.foldl (fun acc link => acc ∪ (f link).toFinset) (s ∪ (f x).toFinset)).card
        ≤ (s ∪ (f x).toFinset).card + (xs.map (fun l => (f l).length)).sum := ih _
      _ ≤ s.card + (f x).length + (xs.map (fun l => (f l).length)).sum := by
          have h1 := Finset.card_union_le s (f x).toFinset
          have h2 := (f x).toFinset_card_le
          omega
      _ = s.card + ((f x).length + (xs.map (fun l => (f l).length)).sum) := by omega

theorem countPosMatches_self (l : List Char) : countPosMatches l l = l.length := by
  induction l with
  | nil => rfl
  | cons c t ih =>
    simp [countPosMatches, List.countP_cons] at ih ⊢
    omega

/-! ### C1 — frontier expansion and the page cap -/

/-- C1 counterexample: a homepage with 501 distinct links already seeds
the `crawled` set past the 500-page cap, and expansion never shrinks it,
so the completed crawl set exceeds `MAX_PAGES`. -/
theorem crawl_cap_counterexample :
    MAX_PAGES < (crawlExpand cxUrls (fun _ => [])).card := by
  have h : MAX_PAGES < cxUrls.toFinset.card := by
    simp [MAX_PAGES, cxUrls_toFinset_card]
  rw [crawlExpand, if_pos h]
  exact h

/-- C1 (amended): the completed crawl set is not capped at `MAX_PAGES`;
when the seed set alone already exceeds the cap no seed is expanded and
the set is exactly the seed links, and in every case the set's size is
bounded only by the seed count plus the number of links extracted from
the first 20 seeds (merging never stops at the cap and no fetched result
is dropped). -/
theorem crawl_expansion_bound (allLinks : List String) (fetchLinks : String → List String) :
    (MAX_PAGES < allLinks.toFinset.card → crawlExpand allLinks fetchLinks = allLinks.toFinset) ∧
    (crawlExpand allLinks fetchLinks).card ≤
      allLinks.length + ((allLinks.take 20).map (fun l => (fetchLinks l).length)).sum := by
  constructor
  · intro h
    rw [crawlExpand, if_pos h]
  · rw [crawlExpand]
    split
    · exact le_trans allLinks.toFinset_card_le (Nat.le_add_right _ _)
    · refine le_trans (foldl_union_card_le fetchLinks (allLinks.take 20) allLinks.toFinset) ?_
      have := allLinks.toFinset_card_le
      omega

/-- Witness for C1's amended theorem at the 501-link seed graph. -/
theorem crawl_expansion_bound_witness :
    crawlExpand cxUrls (fun _ => []) = cxUrls.toFinset :=
  (crawl_expansion_bound cxUrls (fun _ => [])).1
    (by simp [MAX_PAGES, cxUrls_toFinset_card])

/-! ### C2 — the `verify-script` action -/

/-- C2: the POST handler never consults the `action` field of the body;
a request carrying `action = "verify-script"` runs the ordinary scan
pipeline (here: the homepage fetch of the scan, whose failure yields the
scan's 500 response), and no response shape of the handler carries a
`found` field. -/
theorem verify_script_ignored :
    (∀ runScan, POST { url := some "https://example.com/", action := some "verify-script" }
        (some "sk-test") (fun _ => "") runScan = .scanFailed "Failed to fetch homepage") ∧
    (∀ body apiKey fetch runScan a,
      POST { body with action := a } apiKey fetch runScan = POST body apiKey fetch runScan) := by
  constructor
  · intro runScan
    rfl
  · intro body apiKey fetch runScan a
    rfl

/-! ### C3 — the low-content score scenario -/

/-- C3 counterexample: a scan satisfying the claim's hypotheses (no
violations, no missing required pages, zero content pages) whose homepage
merely lacks a meta description scores 87, not 90. -/
theorem low_content_score_counterexample :
    computeScore 0 0 0 0 false true ≠ 90 ∧ computeScore 0 0 0 0 false true = 87 := by
  decide

/-- C3 (amended): with a reachable homepage, zero content pages, all
required pages present, no violations, and additionally a homepage that
has a meta description, good headers and no structural-quality issues,
the score is exactly 90 and the summary is the low-content message. -/
theorem low_content_clean_homepage_score :
    computeScore 0 0 0 0 true true = 90 ∧
    ∀ pagesWithIssuesCount, summaryOf 0 pagesWithIssuesCount 0 = "Low content (0 posts)." := by
  refine ⟨by decide, fun pagesWithIssuesCount => ?_⟩
  rfl

/-! ### C4 — the duplicate-content penalty -/

/-- C4 counterexample: a page flagged purely as duplicate content
contributes one violation, and moves an otherwise-perfect score from 100
to 95 — a 5-point deduction, not the claimed 1-point deduction. -/
theorem duplicate_penalty_counterexample :
    totalViolationsOf [duplicatePageIssue "https://example.com/p1/"] [] = 1 ∧
    computeScore (totalViolationsOf [duplicatePageIssue "https://example.com/p1/"] [])
      0 0 40 true true = 95 ∧
    computeScore 0 0 0 40 true true = 100 := by
  decide

/-- C4 (amended): a page flagged purely as duplicate content contributes
exactly one violation and, whenever the deductions do not clamp, lowers
the score by exactly 5 points — the same 5 points as every other policy
violation. -/
theorem duplicate_page_five_point_penalty (p : String)
    (tv missingCount homepageIssueCount totalPosts : Nat) (mt gh : Bool)
    (h : 5 * (tv + 1) + 5 * missingCount + 2 * homepageIssueCount + 16 ≤ 100) :
    totalViolationsOf [duplicatePageIssue p] [] = 1 ∧
    computeScore (tv + 1) missingCount homepageIssueCount totalPosts mt gh + 5 =
      computeScore tv missingCount homepageIssueCount totalPosts mt gh := by
  constructor
  · rfl
  · simp only [computeScore]
    split_ifs <;> omega

/-- Witness for C4's amended theorem. -/
theorem duplicate_page_five_point_penalty_witness :
    totalViolationsOf [duplicatePageIssue "https://example.com/a/"] [] = 1 ∧
    computeScore (0 + 1) 0 0 40 true true + 5 = computeScore 0 0 0 40 true true :=
  duplicate_page_five_point_penalty "https://example.com/a/" 0 0 0 40 true true (by norm_num)

/-! ### C5 — the semantic-classifier confidence filter -/

/-- C5 counterexample: a classifier violation with confidence exactly 0.8
is dropped by the adapter's filter (`confidence > 0.8` is strict), while
the claim says it must be retained. -/
theorem confidence_boundary_counterexample :
    aiViolationFilter [{ type := "ExcessiveAds", excerpt := "ads", confidence := 8 / 10 }] = [] := by
  simp [aiViolationFilter]

/-- C5 (amended): the adapter retains a classifier violation exactly when
its confidence is strictly greater than 0.8; in particular everything
below 0.8, and 0.8 itself, never survives the filter. -/
theorem ai_violation_filter_membership (v : AIViolation) (vs : List AIViolation) :
    v ∈ aiViolationFilter vs ↔ v ∈ vs ∧ (8 : ℚ) / 10 < v.confidence := by
  simp [aiViolationFilter]

/-- Witness for C5's amended theorem: a 0.95-confidence violation is
retained. -/
theorem ai_violation_filter_membership_witness :
    ({ type := "Scam", excerpt := "x", confidence := 95 / 100 } : AIViolation) ∈
      aiViolationFilter [{ type := "Scam", excerpt := "x", confidence := 95 / 100 }] :=
  (ai_violation_filter_membership _ _).mpr ⟨List.mem_singleton.mpr rfl, by norm_num⟩

/-! ### C6 — tool/download keywords in the URL classifier -/

/-- C6 counterexample: a URL whose path contains the tool keyword
`download` but which carries a fragment is rejected by `isLikelyPostUrl`
(the fragment check precedes the tool-keyword check), contradicting the
claim's universal statement. -/
theorem tool_keyword_fragment_counterexample :
    (parseUrl (toLowerStr "https://example.com/download/#reviews")).map UrlParts.pathname =
      some "/download/" ∧
    toolKeywords.any (fun kw => strContains "/download/" kw) = true ∧
    isLikelyPostUrl "https://example.com/download/#reviews" = some false := by
  decide

/-- C6 (amended): for every fragment-free URL whose (lowercased) path
contains a tool/download keyword, `isLikelyPostUrl` classifies the URL as
content, regardless of any structural/category pattern it also
matches. -/
theorem tool_keyword_url_classified_content (url : String) (urlObj : UrlParts)
    (hparse : parseUrl (toLowerStr url) = some urlObj)
    (hfrag : urlObj.hash = "")
    (hkw : toolKeywords.any (fun kw => strContains urlObj.pathname kw) = true) :
    isLikelyPostUrl url = some true := by
  have hkw' : ∃ kw ∈ toolKeywords, strContains urlObj.pathname kw = true := by
    simpa using hkw
  simp [isLikelyPostUrl, hparse, isLikelyPostUrlAux, hfrag]
  exact Or.inl hkw'

/-- Witness for C6's amended theorem: a fragment-free URL that contains
both a structural pattern (`/category/`) and a tool keyword is classified
as content. -/
theorem tool_keyword_url_classified_content_witness :
    isLikelyPostUrl "https://example.com/category/free-download/" = some true :=
  tool_keyword_url_classified_content "https://example.com/category/free-download/"
    { pathname := "/category/free-download/", hash := "" }
    (by decide) (by decide) (by decide)

/-! ### C7 — status codes at the API boundary -/

/-- C7 counterexample: a syntactically invalid (but nonempty) `url` is
not rejected with 400; it flows into the pipeline, the homepage fetch
fails, and the handler answers 500 `{ error, message }`. -/
theorem invalid_url_status_counterexample :
    (POST { url := some "notaurl", action := none } (some "sk-test") (fun _ => "")
        (fun _ _ => rsZero)).status = 500 ∧
    POST { url := some "notaurl", action := none } (some "sk-test") (fun _ => "")
        (fun _ _ => rsZero) = .scanFailed "Failed to fetch homepage" := by
  decide

/-- C7 (amended): the handler returns 400 (with an `{ error }` body that
has no `message` field) exactly when the `url` value is missing or empty;
500 arises exactly when a nonempty url is present and either the OpenAI
key is falsy or the homepage fetch comes back empty (or the pipeline
itself faults). -/
theorem post_status_characterization (body : RequestBody) (apiKey : Option String)
    (fetch : String → String) (runScan : String → String → SiteReportShape) :
    (POST body apiKey fetch runScan = .urlRequired ↔
      body.url = none ∨ body.url = some "") ∧
    ((POST body apiKey fetch runScan).status = 500 ↔
      ∃ u, body.url = some u ∧ u ≠ "" ∧ (falsyStr apiKey = true ∨ fetch u = "")) := by
  rcases body with ⟨url?, action?⟩
  cases url? with
  | none => simp [POST, PostResponse.status]
  | some u =>
    by_cases hu : u = ""
    · subst hu
      simp [POST, PostResponse.status]
    · by_cases hk : falsyStr apiKey = true
      · simp [POST, hu, hk, PostResponse.status]
      · by_cases hf : fetch u = ""
        · simp [POST, hu, hk, hf, PostResponse.status]
        · simp [POST, hu, hk, hf, PostResponse.status]

/-- Witness for C7's amended theorem at a missing url. -/
theorem post_status_characterization_witness :
    POST { url := none, action := none } none (fun _ => "") (fun _ _ => rsZero) = .urlRequired :=
  (post_status_characterization _ _ _ _).1.mpr (Or.inl rfl)

/-! ### C8 — duplicate-detector round trip -/

/-- C8 counterexample: for a short body, the round trip fails — the
detector skips every comparison whose normalized length is at most 100
characters and reports no duplicate. -/
theorem duplicate_roundtrip_counterexample :
    checkForDuplicateContent "a" ["a"] = false := by
  decide

/-- C8 (amended): for every body whose normalized form is longer than 100
characters, checking it against a prior-bodies list that contains the
same body reports a duplicate. -/
theorem duplicate_roundtrip_long_bodies (content : String) (existingContent : List String)
    (hmem : content ∈ existingContent)
    (hlen : 100 < (normalizeContent content).length) :
    checkForDuplicateContent content existingContent = true := by
  unfold checkForDuplicateContent
  rw [List.any_eq_true]
  refine ⟨content, hmem, ?_⟩
  simp only [min_self]
  rw [if_pos hlen, decide_eq_true_eq, countPosMatches_self]
  have hne : ((normalizeContent content).length : ℚ) ≠ 0 := by
    have h0 : (normalizeContent content).length ≠ 0 := by omega
    exact_mod_cast h0
  rw [div_self hne]
  norm_num

/-- Witness for C8's amended theorem at a 101-character body. -/
theorem duplicate_roundtrip_long_bodies_witness :
    checkForDuplicateContent longBody [longBody] = true :=
  duplicate_roundtrip_long_bodies longBody [longBody] (by decide) (by decide)

/-! ### C9 — the aggregated suggestion list -/

/-- C9 counterexample: with 16 pending suggestions (which a 20-entry cap
would keep in full) the report retains only 15 and drops the 16th. -/
theorem suggestions_cap_counterexample :
    sixteenSuggestions.length = 16 ∧
    (reportAiSuggestions sixteenSuggestions [] [] []).length = 15 ∧
    "s16" ∉ reportAiSuggestions sixteenSuggestions [] [] [] ∧
    "s16" ∈ sixteenSuggestions := by
  decide

/-- C9 (amended): the report's suggestion list is the in-order
concatenation of the homepage suggestions, every page's suggestions, the
missing-required-pages reminder and the homepage-structure reminder,
truncated to at most 15 entries. -/
theorem report_suggestions_shape (homepageSuggestions : List String)
    (pagesWithIssues : List PageIssue) (missing homepageStructureIssues : List String) :
    reportAiSuggestions homepageSuggestions pagesWithIssues missing homepageStructureIssues =
      (homepageSuggestions ++ pagesWithIssues.flatMap (fun p => p.suggestions) ++
        (if missing = [] then []
          else ["Add missing pages: " ++ String.intercalate ", " missing]) ++
        (if homepageStructureIssues = [] then []
          else ["Fix homepage structure: " ++
            String.intercalate ", " homepageStructureIssues])).take 15 := by
  unfold reportAiSuggestions aiSuggestionsFull
  cases missing <;> cases homepageStructureIssues <;> simp [List.append_assoc]

/-! ### C10 — missing OpenAI key short-circuits the scan -/

/-- C10: when the OpenAI key is unset and a scan request with a nonempty
url arrives, the handler answers 500 with an `{ error }` body (no
`message` field), and the answer is independent of the fetch and scan
oracles — no page is fetched and no degraded report is produced. -/
theorem missing_api_key_early_500 (u : String) (a : Option String)
    (fetch fetch' : String → String) (runScan runScan' : String → String → SiteReportShape)
    (hu : u ≠ "") :
    POST { url := some u, action := a } none fetch runScan = .apiKeyMissing ∧
    (POST { url := some u, action := a } none fetch runScan).status = 500 ∧
    (POST { url := some u, action := a } none fetch runScan).bodyHasMessageField = false ∧
    POST { url := some u, action := a } none fetch runScan =
      POST { url := some u, action := a } none fetch' runScan' := by
  simp [POST, hu, falsyStr, PostResponse.status, PostResponse.bodyHasMessageField]

/-- Witness for C10 at a concrete request. -/
theorem missing_api_key_early_500_witness :
    POST { url := some "https://example.com", action := none } none
        (fun _ => "<html></html>") (fun _ _ => rsZero) = .apiKeyMissing :=
  (missing_api_key_early_500 "https://example.com" none
    (fun _ => "<html></html>") (fun _ => "") (fun _ _ => rsZero) (fun _ _ => rsZero)
    (by decide)).1

end PubGuard
